import Mathlib

/-!
Shallow embedding of `chrome/content/zotero/xpcom/recognizePDF.js`
(`Zotero.RecognizePDF`): a sequential PDF-recognition queue with a row
table for display, an event bus, a single-flight worker loop, a
recognition pipeline and an item materializer.

JavaScript state is modelled by explicit state passing; fired listener
events are collected into lists (we model the emission points: the source
fires an event only when a listener is registered, which does not change
the state transitions). Machine-level JS details that matter are kept:
`_queue.unshift` / `_queue.shift` ordering, first-match row scans,
truthiness of strings (`''` is falsy) and of `undefined` properties, and
the distinct JS properties `res.issn` / `res.ISSN`.
-/

namespace RecognizePDF

/-- Source: `const OFFLINE_RECHECK_DELAY = 60 * 1000` (line 27), in milliseconds. -/
def OFFLINE_RECHECK_DELAY : Nat := 60 * 1000

/-- Source: `const MAX_PAGES = 5` (line 28). -/
def MAX_PAGES : Nat := 5

/-- Source: `this.ROW_QUEUED = 1` (line 30). -/
def ROW_QUEUED : Nat := 1

/-- Source: `this.ROW_PROCESSING = 2` (line 31). -/
def ROW_PROCESSING : Nat := 2

/-- Source: `this.ROW_FAILED = 3` (line 32). -/
def ROW_FAILED : Nat := 3

/-- Source: `this.ROW_SUCCEEDED = 4` (line 33). -/
def ROW_SUCCEEDED : Nat := 4

/-- Model of `Zotero.getString`: an injective map from localization keys to
localized strings (external collaborator; the loop only passes keys through). -/
def getString (key : String) : String := "localized:" ++ key

/-- JS truthiness of an optional string property: `undefined` and `''` are
falsy, every other string is truthy. -/
def truthy : Option String → Bool
  | none => false
  | some s => !s.isEmpty

/-- One display row (object literal at lines 130–135). -/
structure Row where
  id : Nat
  status : Nat
  fileName : String
  message : String
deriving Repr, DecidableEq

/-- Events fired to registered listeners (`_listeners[...](...)` call sites). -/
inductive Event where
  | rowadded (id : Nat) (status : Nat) (fileName : String) (message : String)
  | rowupdated (id : Nat) (status : Nat) (message : String)
  | rowdeleted (id : Nat)
  | nonempty
  | empty
deriving Repr, DecidableEq

/-- The module-level mutable state: `_rows`, `_queue`, `_queueProcessing`
(lines 36–38). `_rows` is most-recently-added-first (`unshift`). -/
structure RState where
  rows : List Row
  queue : List Nat
  queueProcessing : Bool
deriving Repr, DecidableEq

/-- The initial module state. -/
def initState : RState := ⟨[], [], false⟩

/-- What a queued caller-side item contributes to `_addItem`: `item.id` and
`item.getField('title')`. -/
structure ZItemRef where
  id : Nat
  title : String
deriving Repr, DecidableEq

/-- Remove the first row with the given id, reporting whether one was found
(the `for`/`splice`/`return` scan of `_deleteRow`, lines 177–188). -/
def removeFirst (itemID : Nat) : List Row → List Row × Bool
  | [] => ([], false)
  | r :: rs =>
    if r.id == itemID then (rs, true)
    else
      let p := removeFirst itemID rs
      (r :: p.1, p.2)

/-- Function `_deleteRow(itemID)` (lines 176–189): remove the first matching row and
fire `rowdeleted`; no-op (no event) when no row matches. -/
def _deleteRow (itemID : Nat) (s : RState) : RState × List Event :=
  let p := removeFirst itemID s.rows
  if p.2 then ({ s with rows := p.1 }, [Event.rowdeleted itemID])
  else (s, [])

/-- Update the first row with the given id in place (the scan of
`_updateRow`, lines 156–169). -/
def updateFirst (itemID : Nat) (status : Nat) (message : String) :
    List Row → List Row
  | [] => []
  | r :: rs =>
    if r.id == itemID then { r with status := status, message := message } :: rs
    else r :: updateFirst itemID status message rs

/-- Function `_updateRow(itemID, status, message)` (lines 155–170): mutate the first
matching row and fire `rowupdated`; no-op when the row no longer exists. -/
def _updateRow (itemID : Nat) (status : Nat) (message : String) (s : RState) :
    RState × List Event :=
  if s.rows.any (fun r => r.id == itemID) then
    ({ s with rows := updateFirst itemID status message s.rows },
      [Event.rowupdated itemID status message])
  else (s, [])

/-- The unconditional tail of `_addItem` (lines 130–146): build a fresh
Queued row, `_rows.unshift(row)`, `_queue.unshift(item.id)`, fire
`rowadded`, and fire `nonempty` when the table now has exactly one row. -/
def insertFresh (item : ZItemRef) (s : RState) : RState × List Event :=
  let row : Row := ⟨item.id, ROW_QUEUED, item.title, ""⟩
  let rows' := row :: s.rows
  ({ s with rows := rows', queue := item.id :: s.queue },
    [Event.rowadded row.id row.status row.fileName row.message]
      ++ (if rows'.length == 1 then [Event.nonempty] else []))

/-- Function `_addItem(item)` (lines 119–147): scan `_rows` for the first row with the
item's id; if found with terminal status (`> ROW_PROCESSING`) delete it and
fall through to insertion, if found with active status return with no change;
otherwise insert a fresh Queued row at the front of rows and queue. -/
def _addItem (item : ZItemRef) (s : RState) : RState × List Event :=
  match s.rows.find? (fun r => r.id == item.id) with
  | some r =>
    if r.status > ROW_PROCESSING then
      let p1 := _deleteRow item.id s
      let p2 := insertFresh item p1.1
      (p2.1, p1.2 ++ p2.2)
    else (s, [])
  | none => insertFresh item s

/-- Function `cancel()` (lines 106–112): clear queue and rows, fire `empty`. -/
def cancel (s : RState) : RState × List Event :=
  ({ s with queue := [], rows := [] }, [Event.empty])

/-- Function `getProcessedTotal()` (lines 99–101). -/
def getProcessedTotal (s : RState) : Nat :=
  (s.rows.filter (fun row => row.status > ROW_PROCESSING)).length

/-! ## The worker loop (`_processQueue`, lines 195–236)

The per-item pipeline `_processItem` is an awaited call whose outcome the
loop branches on (lines 213–231); the loop itself only distinguishes four
outcomes, which we model as an oracle indexed by item id. Connectivity
(`Zotero.HTTP.browserIsOffline()`, an external collaborator read once per
iteration) is modelled as a Boolean schedule indexed by the iteration
counter. The `while (1)` loop is given fuel; `none` means the fuel ran out
before the loop exited. -/

/-- Outcome of one `await _processItem(itemID)` as the loop observes it:
a produced new item (carrying `newItem.getField('title')`), a `null` result,
a thrown `Zotero.Exception.Alert` (carrying `e.message`), or any other
thrown error. -/
inductive PipelineResult where
  | newItem (title : String)
  | noResult
  | alertError (message : String)
  | otherError (message : String)
deriving Repr, DecidableEq

/-- What one run of the loop produced: the final state, the fired events in
order, the dequeued item ids in processing order, and the length in ms of
each offline back-off sleep taken. -/
structure LoopOut where
  state : RState
  events : List Event
  processed : List Nat
  sleeps : List Nat
deriving Repr, DecidableEq

/-- The loop body from `_updateRow(itemID, ROW_PROCESSING, ...)` through the
`try`/`catch` (lines 210–232): mark Processing, run the pipeline, then mark
Succeeded with the new item's title, or Failed with the no-matches message,
the alert's own message, or the generic localized error message. -/
def runItem (oracle : Nat → PipelineResult) (itemID : Nat) (s : RState) :
    RState × List Event :=
  let p1 := _updateRow itemID ROW_PROCESSING (getString "recognizePDF.processing") s
  let p2 :=
    match oracle itemID with
    | .newItem title => _updateRow itemID ROW_SUCCEEDED title p1.1
    | .noResult => _updateRow itemID ROW_FAILED (getString "recognizePDF.noMatches") p1.1
    | .alertError m => _updateRow itemID ROW_FAILED m p1.1
    | .otherError _ => _updateRow itemID ROW_FAILED (getString "recognizePDF.error") p1.1
  (p2.1, p1.2 ++ p2.2)

/-- The `while (1)` loop of `_processQueue` (lines 201–233) plus the final
`_queueProcessing = false` (line 235). Each iteration: if offline, sleep
`OFFLINE_RECHECK_DELAY` and `continue`; otherwise `_queue.shift()`; a falsy
shifted value (`undefined` on empty queue, or the id `0`) breaks the loop;
otherwise run the item and iterate. -/
def processLoop (oracle : Nat → PipelineResult) (offline : Nat → Bool) :
    Nat → Nat → RState → Option LoopOut
  | 0, _, _ => none
  | fuel + 1, i, s =>
    if offline i then
      (processLoop oracle offline fuel (i + 1) s).map
        (fun out => { out with sleeps := OFFLINE_RECHECK_DELAY :: out.sleeps })
    else
      match s.queue with
      | [] => some ⟨{ s with queueProcessing := false }, [], [], []⟩
      | itemID :: rest =>
        if itemID == 0 then
          some ⟨{ s with queue := rest, queueProcessing := false }, [], [], []⟩
        else
          let p := runItem oracle itemID { s with queue := rest }
          (processLoop oracle offline fuel (i + 1) p.1).map
            (fun out => { out with
              events := p.2 ++ out.events
              processed := itemID :: out.processed })

/-- Function `_processQueue()` (lines 195–236): after the startup await, a second
start observes `_queueProcessing` and returns immediately (line 198);
otherwise the flag is set and the loop runs. -/
def _processQueue (oracle : Nat → PipelineResult) (offline : Nat → Bool)
    (fuel : Nat) (s : RState) : Option LoopOut :=
  if s.queueProcessing then some ⟨s, [], [], []⟩
  else processLoop oracle offline fuel 0 { s with queueProcessing := true }

/-- Function `recognizeItems(items)` (lines 72–77): `_addItem` each item in order,
then start `_processQueue`. Returns the enqueue events together with the
loop's outcome. -/
def recognizeItems (oracle : Nat → PipelineResult) (offline : Nat → Bool)
    (fuel : Nat) (items : List ZItemRef) (s : RState) :
    List Event × Option LoopOut :=
  let p := items.foldl
    (fun (acc : RState × List Event) it =>
      let q := _addItem it acc.1
      (q.1, acc.2 ++ q.2))
    (s, [])
  (p.2, _processQueue oracle offline fuel p.1)

/-! ## Item materialization (`_processItem`, lines 250–264)

The persistent store (`Zotero.Collections`, `collection.addItem`,
`item.save`, `Zotero.DB.executeTransaction`) is an external collaborator.
Its state is modelled as collection-membership pairs plus a parent map;
failure of the individual operations inside the transaction callback is
injected through an environment. -/

/-- The persistent store visible to this step: collection memberships
`(collectionID, itemID)` and item parents `(itemID, parentItemID)`. -/
structure DB where
  collectionItems : List (Nat × Nat)
  parents : List (Nat × Nat)
deriving Repr, DecidableEq

/-- Failure injection for the awaited store operations inside the
transaction callback: `collection.addItem` per collection, and
`item.save()`. `some msg` means the awaited call rejects with that error. -/
structure PersistEnv where
  addItemError : Nat → Option String
  saveError : Option String

/-- Effect of `collection.addItem(newItem.id)` on success: record the membership. -/
def collectionAddItem (collectionID itemID : Nat) (db : DB) : DB :=
  { db with collectionItems := (collectionID, itemID) :: db.collectionItems }

/-- Effect of `item.parentID = newItem.id; await item.save()` on success: replace
the item's parent entry. -/
def setParent (srcItemID newItemID : Nat) (db : DB) : DB :=
  { db with parents :=
      (srcItemID, newItemID) :: db.parents.filter (fun p => p.1 ≠ srcItemID) }

/-- The item's parent as stored. -/
def parentOf (db : DB) (itemID : Nat) : Option Nat :=
  (db.parents.find? (fun p => p.1 == itemID)).map (fun p => p.2)

/-- The `for` loop of the transaction callback (lines 254–257): add the new
item to each of the source item's collections in order, stopping at the
first rejected `addItem`. -/
def addToCollections (env : PersistEnv) (cols : List Nat) (newItemID : Nat)
    (db : DB) : Except String DB :=
  match cols with
  | [] => .ok db
  | c :: cs =>
    match env.addItemError c with
    | some msg => .error msg
    | none => addToCollections env cs newItemID (collectionAddItem c newItemID db)

/-- The transaction callback (lines 253–262): copy collection memberships,
then re-parent the source item and save it. -/
def materializeBody (env : PersistEnv) (cols : List Nat)
    (newItemID srcItemID : Nat) (db : DB) : Except String DB :=
  match addToCollections env cols newItemID db with
  | .error e => .error e
  | .ok db1 =>
    match env.saveError with
    | some msg => .error msg
    | none => .ok (setParent srcItemID newItemID db1)

/-- Modelled from the spec: `Zotero.DB.executeTransaction` is not under
`src/`; per the persistence contract (spec §6) a transactional save either
fully commits the callback's mutations or fully rolls them back, and a
callback error propagates to the caller. -/
def executeTransaction (body : DB → Except String DB) (db : DB) :
    DB × Option String :=
  match body db with
  | .ok db' => (db', none)
  | .error e => (db, some e)

/-- The materialization step of `_processItem` when `_recognize` produced a
new item (lines 250–264): run the collection copy and the re-parenting
inside one `Zotero.DB.executeTransaction`. Returns the resulting store and
the propagated error, if any. -/
def materializeNewItem (env : PersistEnv) (cols : List Nat)
    (newItemID srcItemID : Nat) (db : DB) : DB × Option String :=
  executeTransaction (materializeBody env cols newItemID srcItemID) db

/-! ## Recognition (`_recognize`, lines 356–467)

`extractJSON` already happened: `_recognize`'s input here is the per-page
extracted text (`page[2]` of each page of the parsed JSON). The recognition
service (`_query`) and the two translation lookups are external
collaborators modelled as oracles; `none` for a translation means the
awaited call threw. -/

/-- The parsed JSON response of the recognition service, as the resolver
reads it. Every property the source reads is its own field; note that the
source tests `res.ISSN` but reads `res.issn` (line 452), which are distinct
JS properties, so both appear here. -/
structure RecogRes where
  doi : Option String := none
  isbn : Option String := none
  title : Option String := none
  abstract : Option String := none
  year : Option String := none
  pages : Option String := none
  volume : Option String := none
  url : Option String := none
  issue : Option String := none
  issn : Option String := none
  ISSN : Option String := none
  container : Option String := none
  publisher : Option String := none
  type : Option String := none
  authors : List (String × String) := []
deriving Repr, DecidableEq

/-- A bibliographic item under construction: its type, the `setField` log
(values as passed, so an `undefined` value is representable), the creators
set by `setCreators` as `(firstName, lastName, creatorType)`, the owning
library and whether `saveTx` ran. -/
structure ZItemNew where
  itemType : String := ""
  fields : List (String × Option String) := []
  creators : List (String × String × String) := []
  libraryID : Option Nat := none
  saved : Bool := false
deriving Repr, DecidableEq

/-- Method `newItem.setField(key, value)`. -/
def setField (item : ZItemNew) (key : String) (value : Option String) : ZItemNew :=
  { item with fields := item.fields ++ [(key, value)] }

/-- Read a field back from the `setField` log (first write wins; each key is
written at most once on these paths). -/
def getField (item : ZItemNew) (key : String) : Option String :=
  (item.fields.find? (fun p => p.1 == key)).bind (fun p => p.2)

/-- The three resolver branches (lines 377–464). -/
inductive Branch where
  | doi
  | isbn
  | title
deriving Repr, DecidableEq

/-- Oracles for the external calls `_recognize` awaits: the recognition
service response (`.error`: the request failed; `.ok none`: a falsy parsed
response; `.ok (some res)`: a candidate), the DOI translation
(`none`: `_promiseTranslate` threw) and the ISBN translation
(`none`: `translate.translate` threw; otherwise the translated items). -/
structure RecogEnv where
  queryResult : Except String (Option RecogRes)
  doiTranslate : Option ZItemNew
  isbnTranslate : Option (List ZItemNew)

/-- How `_recognize` reports failure: a `Zotero.Exception.Alert` with its
key, or any other thrown error. -/
inductive RecError where
  | alert (key : String)
  | generic (message : String)
deriving Repr, DecidableEq

/-- Observable effects of one `_recognize` run: whether the network request
to the recognition service was made, and which resolver branches executed. -/
structure RecTrace where
  queried : Bool
  branches : List Branch
deriving Repr, DecidableEq

/-- The abstract backfill shared by the DOI and ISBN branches
(`if (!newItem.abstractNote && res.abstract) ...`, lines 384–385, 410–411). -/
def backfillAbstract (res : RecogRes) (item : ZItemNew) : ZItemNew :=
  if !truthy (getField item "abstractNote") && truthy res.abstract then
    setField item "abstractNote" res.abstract
  else item

/-- The DOI branch body (lines 378–392): translation success yields the
translated item with abstract backfilled and saved; a thrown translation is
logged and falls through (`none`). -/
def doiBranchRun (env : RecogEnv) (res : RecogRes) : Option ZItemNew :=
  match env.doiTranslate with
  | some newItem => some { backfillAbstract res newItem with saved := true }
  | none => none

/-- The ISBN branch body (lines 396–419): a thrown translation or an empty
result list falls through; otherwise the first translated item is
instantiated in the caller's library, backfilled and saved. -/
def isbnBranchRun (env : RecogEnv) (libraryID : Nat) (res : RecogRes) :
    Option ZItemNew :=
  match env.isbnTranslate with
  | some (first :: _) =>
    some { backfillAbstract res { first with libraryID := some libraryID }
            with saved := true }
  | some [] => none
  | none => none

/-- The title branch body (lines 422–463): construct the item directly from
the candidate's fields. Every `setField` call is reproduced, including
`if (res.ISSN) newItem.setField('issn', res.issn)` at line 452. -/
def titleBranchItem (libraryID : Nat) (res : RecogRes) : ZItemNew :=
  let type := if res.type == some "book-chapter" then "bookSection" else "journalArticle"
  let item : ZItemNew := { itemType := type, libraryID := some libraryID }
  let item := setField item "title" res.title
  let item := { item with
    creators := res.authors.map (fun a => (a.1, a.2, "author")) }
  let item := if truthy res.abstract then setField item "abstractNote" res.abstract else item
  let item := if truthy res.year then setField item "date" res.year else item
  let item := if truthy res.pages then setField item "pages" res.pages else item
  let item := if truthy res.volume then setField item "volume" res.volume else item
  let item := if truthy res.url then setField item "url" res.url else item
  let item :=
    if type == "journalArticle" then
      let item := if truthy res.issue then setField item "issue" res.issue else item
      let item := if truthy res.ISSN then setField item "issn" res.issn else item
      let item := if truthy res.container then setField item "publicationTitle" res.container else item
      item
    else
      let item := if truthy res.container then setField item "bookTitle" res.container else item
      let item := if truthy res.publisher then setField item "publisher" res.publisher else item
      item
  let item := setField item "libraryCatalog" (some "Zotero")
  { item with saved := true }

/-- The title `if` block (lines 422–464), reached only by falling through
the two earlier blocks; `tr` is the trace of branches already executed. -/
def resolveTitle (libraryID : Nat) (res : RecogRes) (tr : List Branch) :
    Option ZItemNew × List Branch :=
  if truthy res.title then
    (some (titleBranchItem libraryID res), tr ++ [Branch.title])
  else (none, tr)

/-- The ISBN `if` block (lines 395–420) and what follows it: a returned item
short-circuits, a throw or an empty result falls through to the title block. -/
def resolveAfterDoi (env : RecogEnv) (libraryID : Nat) (res : RecogRes)
    (tr : List Branch) : Option ZItemNew × List Branch :=
  if truthy res.isbn then
    match isbnBranchRun env libraryID res with
    | some item => (some item, tr ++ [Branch.isbn])
    | none => resolveTitle libraryID res (tr ++ [Branch.isbn])
  else resolveTitle libraryID res tr

/-- The resolver chain (lines 377–466): the three `if` blocks in source
order, each guarded by the truthiness of `res.doi` / `res.isbn` /
`res.title`, a branch that returns an item short-circuiting the rest and a
caught branch failure falling through to the next block. -/
def resolveBranches (env : RecogEnv) (libraryID : Nat) (res : RecogRes) :
    Option ZItemNew × List Branch :=
  if truthy res.doi then
    match doiBranchRun env res with
    | some item => (some item, [Branch.doi])
    | none => resolveAfterDoi env libraryID res [Branch.doi]
  else resolveAfterDoi env libraryID res []

/-- Function `_recognize(item)` after extraction (lines 360–466): count the pages
whose extracted text is non-empty, throw the `noOCR` alert when there are
none (before any network call), query the service, return `null` on a falsy
response, otherwise resolve the candidate. -/
def _recognize (env : RecogEnv) (libraryID : Nat) (pageTexts : List String) :
    Except RecError (Option ZItemNew) × RecTrace :=
  let containingTextPages := (pageTexts.filter (fun p => p.length ≠ 0)).length
  if containingTextPages == 0 then
    (.error (.alert "recognizePDF.noOCR"), ⟨false, []⟩)
  else
    match env.queryResult with
    | .error _ => (.error (.generic "Request error"), ⟨true, []⟩)
    | .ok none => (.ok none, ⟨true, []⟩)
    | .ok (some res) =>
      let p := resolveBranches env libraryID res
      (.ok p.1, ⟨true, p.2⟩)

/-! ## `canRecognize` (lines 62–66) -/

/-- What `canRecognize` reads from its argument: the attachment content type
(`undefined` when not an attachment) and `isTopLevelItem()`. -/
structure ZItemInfo where
  attachmentContentType : Option String
  isTopLevelItem : Bool
deriving Repr, DecidableEq

/-- Function `canRecognize(item)` (lines 62–66): the JS conjunction
`item.attachmentContentType && item.attachmentContentType === 'application/pdf'
&& item.isTopLevelItem()`, coerced to Boolean per the documented contract. -/
def canRecognize (item : ZItemInfo) : Bool :=
  truthy item.attachmentContentType
    && (item.attachmentContentType == some "application/pdf")
    && item.isTopLevelItem

/-! ## Derived notions and concrete instances used in the statements -/

/-- The first row with the given id, as `_addItem`'s scan sees it. -/
def findRow (s : RState) (itemID : Nat) : Option Row :=
  s.rows.find? (fun r => r.id == itemID)

/-- A connectivity schedule that is never offline. -/
def offlineNever : Nat → Bool := fun _ => false

/-- A connectivity schedule that is offline exactly on the first `k`
iterations. -/
def offlineFirst (k : Nat) : Nat → Bool := fun i => i < k

/-- A pipeline oracle on which every item yields no match. -/
def oracleNoMatch : Nat → PipelineResult := fun _ => PipelineResult.noResult

/-- A pipeline oracle on which every item throws a user alert. -/
def oracleAlert : Nat → PipelineResult := fun _ => PipelineResult.alertError "alert text"

/-- A pipeline oracle on which every item throws a non-alert error. -/
def oracleOther : Nat → PipelineResult := fun _ => PipelineResult.otherError "TypeError: x is undefined"

/-- Concrete queued items. -/
def itemA : ZItemRef := ⟨1, "A"⟩

def itemB : ZItemRef := ⟨2, "B"⟩

/-- A state with one Queued row for id 5, id 5 pending. -/
def sActive : RState := ⟨[⟨5, ROW_QUEUED, "t", ""⟩], [5], false⟩

/-- A state with one Failed (terminal) row for id 5. -/
def sTerminal : RState := ⟨[⟨5, ROW_FAILED, "t", "err"⟩], [], false⟩

/-- A persistence environment in which every store operation succeeds. -/
def persistOk : PersistEnv := ⟨fun _ => none, none⟩

/-- A persistence environment in which `item.save()` rejects. -/
def persistSaveFail : PersistEnv := ⟨fun _ => none, some "save failed"⟩

/-- A recognition candidate carrying both a DOI and a title. -/
def resDoiTitle : RecogRes := { doi := some "10.1000/182", title := some "Fallback Title" }

/-- An environment in which the service returns `resDoiTitle` and the DOI
translation throws (lookup failure). -/
def envDoiFails : RecogEnv := ⟨.ok (some resDoiTitle), none, none⟩

/-- A candidate supplying its ISSN under the lowercase `issn` property used
by every other read of the response, plus a title and an issue. -/
def resIssnLower : RecogRes :=
  { title := some "Some Article", issue := some "3", issn := some "1234-5678" }

/-- A candidate supplying its ISSN only under the uppercase `ISSN` property
tested by the guard on line 452. -/
def resIssnUpper : RecogRes := { title := some "Some Article", ISSN := some "1234-5678" }

/-- A translated item as returned by a successful DOI lookup. -/
def itemDoi : ZItemNew := { itemType := "journalArticle", fields := [("title", some "Via DOI")] }

/-- The outcome of running the loop on `sActive` with `oracleNoMatch`. -/
def outNoMatch : LoopOut :=
  ⟨⟨[⟨5, ROW_FAILED, "t", getString "recognizePDF.noMatches"⟩], [], false⟩,
   [Event.rowupdated 5 ROW_PROCESSING (getString "recognizePDF.processing"),
    Event.rowupdated 5 ROW_FAILED (getString "recognizePDF.noMatches")],
   [5], []⟩

/-- An environment in which the service returns `resDoiTitle` and the DOI
translation succeeds with `itemDoi`. -/
def envDoiOk : RecogEnv := ⟨.ok (some resDoiTitle), some itemDoi, none⟩

/-! # Theorems -/

/-! ## Store monotonicity of the transaction callback -/

theorem addToCollections_subset (env : PersistEnv) (cols : List Nat)
    (newItemID : Nat) (db db1 : DB)
    (h : addToCollections env cols newItemID db = .ok db1) :
    ∀ x ∈ db.collectionItems, x ∈ db1.collectionItems := by
  induction cols generalizing db with
  | nil =>
    unfold addToCollections at h
    cases h
    exact fun x hx => hx
  | cons c cs ih =>
    unfold addToCollections at h
    cases hc : env.addItemError c with
    | some msg => rw [hc] at h; cases h
    | none =>
      rw [hc] at h
      intro x hx
      exact ih _ h x (by simp [collectionAddItem, hx])

theorem addToCollections_mem (env : PersistEnv) (cols : List Nat)
    (newItemID : Nat) (db db1 : DB)
    (h : addToCollections env cols newItemID db = .ok db1) :
    ∀ c ∈ cols, (c, newItemID) ∈ db1.collectionItems := by
  induction cols generalizing db with
  | nil => intro c hc; simp at hc
  | cons c0 cs ih =>
    unfold addToCollections at h
    cases hc : env.addItemError c0 with
    | some msg => rw [hc] at h; cases h
    | none =>
      rw [hc] at h
      intro c hcc
      rcases List.mem_cons.mp hcc with rfl | hmem
      · exact addToCollections_subset env cs newItemID _ db1 h _ (by simp [collectionAddItem])
      · exact ih _ h c hmem

/-- C4: the collection copy and the re-parenting of `_processItem` happen
inside one transaction: when it commits, every source collection contains
the new item and the source document's parent is the new item; when any
operation inside it fails, the store is unchanged and the error propagates. -/
theorem materializeNewItem_atomic (env : PersistEnv) (cols : List Nat)
    (newItemID srcItemID : Nat) (db : DB) :
    ((materializeNewItem env cols newItemID srcItemID db).2 = none →
      (∀ c ∈ cols,
        (c, newItemID) ∈ (materializeNewItem env cols newItemID srcItemID db).1.collectionItems)
      ∧ parentOf (materializeNewItem env cols newItemID srcItemID db).1 srcItemID
          = some newItemID)
    ∧ (∀ e, (materializeNewItem env cols newItemID srcItemID db).2 = some e →
        (materializeNewItem env cols newItemID srcItemID db).1 = db) := by
  unfold materializeNewItem executeTransaction
  cases hb : materializeBody env cols newItemID srcItemID db with
  | error e => simp
  | ok db' =>
    simp only []
    refine ⟨?_, by simp⟩
    intro _
    unfold materializeBody at hb
    cases ha : addToCollections env cols newItemID db with
    | error e => rw [ha] at hb; cases hb
    | ok db1 =>
      rw [ha] at hb
      cases hs : env.saveError with
      | some m => rw [hs] at hb; cases hb
      | none =>
        rw [hs] at hb
        cases hb
        constructor
        · intro c hc
          have := addToCollections_mem env cols newItemID db db1 ha c hc
          simpa [setParent] using this
        · simp [parentOf, setParent]

/-- C4 witness: instantiated once with an all-success environment and once
with a failing save. -/
theorem materializeNewItem_atomic_witness :
    ((1, 7) ∈ (materializeNewItem persistOk [1, 2] 7 5 ⟨[], []⟩).1.collectionItems
      ∧ parentOf (materializeNewItem persistOk [1, 2] 7 5 ⟨[], []⟩).1 5 = some 7)
    ∧ (materializeNewItem persistSaveFail [1] 7 5 ⟨[], []⟩).1 = ⟨[], []⟩ :=
  ⟨⟨((materializeNewItem_atomic persistOk [1, 2] 7 5 ⟨[], []⟩).1 rfl).1 1 (by decide),
    ((materializeNewItem_atomic persistOk [1, 2] 7 5 ⟨[], []⟩).1 rfl).2⟩,
   (materializeNewItem_atomic persistSaveFail [1] 7 5 ⟨[], []⟩).2 "save failed" rfl⟩

/-! ## Recognition claims -/

/-- C7: when every extracted page's text is empty, `_recognize` throws the
`noOCR` user alert and makes no request to the recognition service. -/
theorem recognize_noOCR_before_query (env : RecogEnv) (libraryID : Nat)
    (pageTexts : List String) (h : ∀ p ∈ pageTexts, p = "") :
    _recognize env libraryID pageTexts
      = (.error (.alert "recognizePDF.noOCR"), ⟨false, []⟩) := by
  have hf : pageTexts.filter (fun p => p.length ≠ 0) = [] := by
    rw [List.filter_eq_nil_iff]
    intro a ha
    have ha' := h a ha
    subst ha'
    decide
  unfold _recognize
  rw [hf]
  rfl

/-- C7 witness. -/
theorem recognize_noOCR_before_query_witness :
    _recognize ⟨.ok none, none, none⟩ 1 ["", ""]
      = (.error (.alert "recognizePDF.noOCR"), ⟨false, []⟩) :=
  recognize_noOCR_before_query ⟨.ok none, none, none⟩ 1 ["", ""] (by decide)

/-- C8 counterexample: a candidate carrying a DOI (and a title) on which the
DOI lookup throws — the title branch executes after the DOI branch, so the
three branches are not mutually exclusive. -/
theorem resolver_title_runs_with_doi_present :
    truthy resDoiTitle.doi = true
    ∧ (_recognize envDoiFails 1 ["x"]).2.branches = [Branch.doi, Branch.title] :=
  ⟨rfl, rfl⟩

/-- C8 amended: the branches run in source order, each at most once, with
fallthrough on branch failure; a branch that yields an item short-circuits
the rest, so when the DOI lookup succeeds only the DOI branch runs. -/
theorem resolver_short_circuit (env : RecogEnv) (libraryID : Nat) (res : RecogRes) :
    (resolveBranches env libraryID res).2.Sublist [Branch.doi, Branch.isbn, Branch.title]
    ∧ (truthy res.doi = true → ∀ it, env.doiTranslate = some it →
        resolveBranches env libraryID res
          = (some { backfillAbstract res it with saved := true }, [Branch.doi])) := by
  constructor
  · cases htd : truthy res.doi <;>
      cases hti : truthy res.isbn <;>
      cases htt : truthy res.title <;>
      rcases hdt : doiBranchRun env res with _ | it <;>
      rcases hit : isbnBranchRun env libraryID res with _ | it2 <;>
      simp [resolveBranches, resolveAfterDoi, resolveTitle, htd, hti, htt, hdt, hit]
  · intro hd it hit
    simp [resolveBranches, hd, doiBranchRun, hit]

/-- C8 amended witness: a successful DOI lookup runs only the DOI branch. -/
theorem resolver_short_circuit_witness :
    (resolveBranches envDoiOk 1 resDoiTitle).2.Sublist [Branch.doi, Branch.isbn, Branch.title]
    ∧ resolveBranches envDoiOk 1 resDoiTitle
        = (some { backfillAbstract resDoiTitle itemDoi with saved := true }, [Branch.doi]) :=
  ⟨(resolver_short_circuit envDoiOk 1 resDoiTitle).1,
   (resolver_short_circuit envDoiOk 1 resDoiTitle).2 rfl itemDoi rfl⟩

/-- C9: evaluation at the failing input. Line 452 guards on `res.ISSN` but
reads `res.issn`: a candidate supplying its ISSN under `issn` (the casing
every other read of the response uses, witness `issue` on the line above)
never gets the item's `issn` field set, and a candidate supplying only
`ISSN` gets the field set to `undefined`. -/
theorem titleBranch_issn_never_set :
    resIssnLower.issn = some "1234-5678"
    ∧ getField (titleBranchItem 1 resIssnLower) "issn" = none
    ∧ getField (titleBranchItem 1 resIssnLower) "issue" = some "3"
    ∧ ("issn", (none : Option String)) ∈ (titleBranchItem 1 resIssnUpper).fields :=
  ⟨rfl, rfl, rfl, by decide⟩

/-! ## Row-table lemmas -/

theorem removeFirst_sublist (itemID : Nat) (l : List Row) :
    ((removeFirst itemID l).1).Sublist l := by
  induction l with
  | nil => simp [removeFirst]
  | cons x xs ih =>
    simp only [removeFirst]
    by_cases hx : (x.id == itemID) = true
    · simp only [if_pos hx]
      exact List.sublist_cons_self x xs
    · simp only [if_neg hx]
      exact ih.cons₂ x

theorem removeFirst_id_ne (itemID : Nat) (l : List Row)
    (hnd : (l.map Row.id).Nodup) :
    ∀ r' ∈ (removeFirst itemID l).1, r'.id ≠ itemID := by
  induction l with
  | nil => simp [removeFirst]
  | cons x xs ih =>
    rw [List.map_cons, List.nodup_cons] at hnd
    simp only [removeFirst]
    by_cases hx : (x.id == itemID) = true
    · simp only [if_pos hx]
      intro r' hr' heq
      exact hnd.1 (List.mem_map.mpr ⟨r', hr', by rw [heq, eq_of_beq hx]⟩)
    · simp only [if_neg hx]
      intro r' hr'
      rcases List.mem_cons.mp hr' with rfl | h'
      · exact fun heq => hx (beq_iff_eq.mpr heq)
      · exact ih hnd.2 r' h'

theorem removeFirst_found (itemID : Nat) (l : List Row) (r : Row)
    (h : l.find? (fun x => x.id == itemID) = some r) :
    (removeFirst itemID l).2 = true := by
  induction l with
  | nil => simp [List.find?] at h
  | cons x xs ih =>
    simp only [removeFirst]
    by_cases hx : (x.id == itemID) = true
    · simp [hx]
    · simp only [if_neg hx]
      rw [List.find?_cons_of_neg _ (by simpa using hx)] at h
      exact ih h

theorem addItem_of_find?_none (item : ZItemRef) (s : RState)
    (hf : s.rows.find? (fun x => x.id == item.id) = none) :
    _addItem item s = insertFresh item s := by
  unfold _addItem
  rw [hf]

theorem addItem_of_active (item : ZItemRef) (s : RState) (r : Row)
    (hf : s.rows.find? (fun x => x.id == item.id) = some r)
    (hst : ¬ r.status > ROW_PROCESSING) :
    _addItem item s = (s, []) := by
  unfold _addItem
  rw [hf]
  dsimp only
  rw [if_neg hst]

theorem deleteRow_of_found (itemID : Nat) (s : RState)
    (h : (removeFirst itemID s.rows).2 = true) :
    _deleteRow itemID s
      = ({ s with rows := (removeFirst itemID s.rows).1 }, [Event.rowdeleted itemID]) := by
  unfold _deleteRow
  dsimp only
  rw [if_pos h]

theorem addItem_of_terminal (item : ZItemRef) (s : RState) (r : Row)
    (hf : s.rows.find? (fun x => x.id == item.id) = some r)
    (hst : r.status > ROW_PROCESSING) :
    _addItem item s
      = ((insertFresh item { s with rows := (removeFirst item.id s.rows).1 }).1,
          Event.rowdeleted item.id
            :: (insertFresh item { s with rows := (removeFirst item.id s.rows).1 }).2) := by
  unfold _addItem
  rw [hf]
  dsimp only
  rw [if_pos hst, deleteRow_of_found item.id s (removeFirst_found item.id s.rows r hf)]
  simp

/-- C3: `_addItem` keeps row ids unique; re-enqueuing an active (Queued or
Processing) id changes nothing and fires nothing; re-enqueuing a terminal
(Failed or Succeeded) id removes the old row and prepends a fresh Queued
row to rows and the id to the queue, firing `rowdeleted` then `rowadded`
(plus `nonempty` when the fresh row is now the only one). -/
theorem addItem_row_invariants (item : ZItemRef) (s : RState) (r : Row) :
    ((s.rows.map Row.id).Nodup → (((_addItem item s).1).rows.map Row.id).Nodup)
    ∧ (findRow s item.id = some r →
        r.status = ROW_QUEUED ∨ r.status = ROW_PROCESSING →
        _addItem item s = (s, []))
    ∧ (findRow s item.id = some r →
        r.status = ROW_FAILED ∨ r.status = ROW_SUCCEEDED →
        _addItem item s =
          ({ s with
              rows := ⟨item.id, ROW_QUEUED, item.title, ""⟩ :: (removeFirst item.id s.rows).1,
              queue := item.id :: s.queue },
            Event.rowdeleted item.id :: Event.rowadded item.id ROW_QUEUED item.title ""
              :: (if (removeFirst item.id s.rows).1.isEmpty then [Event.nonempty] else []))) := by
  refine ⟨?_, ?_, ?_⟩
  · intro hnd
    cases hf : s.rows.find? (fun x => x.id == item.id) with
    | none =>
      rw [addItem_of_find?_none item s hf]
      simp only [insertFresh, List.map_cons, List.nodup_cons]
      refine ⟨?_, hnd⟩
      rw [List.mem_map]
      rintro ⟨r', hr', hid⟩
      have := List.find?_eq_none.mp hf r' hr'
      simp [hid] at this
    | some r0 =>
      by_cases hst : r0.status > ROW_PROCESSING
      · rw [addItem_of_terminal item s r0 hf hst]
        simp only [insertFresh, List.map_cons, List.nodup_cons]
        refine ⟨?_, ?_⟩
        · rw [List.mem_map]
          rintro ⟨r', hr', hid⟩
          exact removeFirst_id_ne item.id s.rows hnd r' hr' hid
        · exact hnd.sublist ((removeFirst_sublist item.id s.rows).map Row.id)
      · rw [addItem_of_active item s r0 hf hst]
        exact hnd
  · intro hf hst
    rw [findRow] at hf
    refine addItem_of_active item s r hf ?_
    rcases hst with h | h <;> simp [h, ROW_QUEUED, ROW_PROCESSING]
  · intro hf hst
    rw [findRow] at hf
    rw [addItem_of_terminal item s r hf
      (by rcases hst with h | h <;> simp [h, ROW_FAILED, ROW_SUCCEEDED, ROW_PROCESSING])]
    simp only [insertFresh]
    cases hrm : (removeFirst item.id s.rows).1 with
    | nil => simp
    | cons y ys => simp

/-- C3 witness: re-enqueue of an active row is a no-op; re-enqueue of a
terminal row replaces it, firing `rowdeleted` then `rowadded` (and
`nonempty`, the table having been emptied by the delete); ids stay unique. -/
theorem addItem_row_invariants_witness :
    _addItem ⟨5, "t2"⟩ sActive = (sActive, [])
    ∧ _addItem ⟨5, "t2"⟩ sTerminal =
        (⟨[⟨5, ROW_QUEUED, "t2", ""⟩], [5], false⟩,
          [Event.rowdeleted 5, Event.rowadded 5 ROW_QUEUED "t2" "", Event.nonempty])
    ∧ (((_addItem ⟨5, "t2"⟩ sTerminal).1).rows.map Row.id).Nodup :=
  ⟨(addItem_row_invariants ⟨5, "t2"⟩ sActive ⟨5, ROW_QUEUED, "t", ""⟩).2.1 rfl (Or.inl rfl),
   by
    have h := (addItem_row_invariants ⟨5, "t2"⟩ sTerminal ⟨5, ROW_FAILED, "t", "err"⟩).2.2
      rfl (Or.inl rfl)
    rw [h]
    rfl,
   (addItem_row_invariants ⟨5, "t2"⟩ sTerminal ⟨5, ROW_FAILED, "t", "err"⟩).1 (by decide)⟩

/-! ## Worker-loop lemmas -/

theorem updateRow_queue (itemID status : Nat) (message : String) (s : RState) :
    (_updateRow itemID status message s).1.queue = s.queue := by
  unfold _updateRow
  split <;> rfl

theorem updateRow_flag (itemID status : Nat) (message : String) (s : RState) :
    (_updateRow itemID status message s).1.queueProcessing = s.queueProcessing := by
  unfold _updateRow
  split <;> rfl

theorem runItem_queue (oracle : Nat → PipelineResult) (itemID : Nat) (s : RState) :
    (runItem oracle itemID s).1.queue = s.queue := by
  unfold runItem
  dsimp only
  cases oracle itemID <;> simp [updateRow_queue]

/-- With connectivity up throughout and enough fuel, the loop dequeues and
processes exactly the queue, front first, and exits with an empty queue and
a cleared flag. -/
theorem processLoop_online (oracle : Nat → PipelineResult) (fuel i : Nat) (s : RState)
    (hpos : ∀ id ∈ s.queue, id ≠ 0) (hlen : s.queue.length < fuel) :
    ∃ out, processLoop oracle offlineNever fuel i s = some out
      ∧ out.processed = s.queue
      ∧ out.state.queue = []
      ∧ out.state.queueProcessing = false
      ∧ out.sleeps = [] := by
  induction fuel generalizing i s with
  | zero => exact absurd hlen (by omega)
  | succ fuel ih =>
    unfold processLoop
    rw [if_neg (by simp [offlineNever])]
    cases hq : s.queue with
    | nil =>
      exact ⟨⟨⟨s.rows, [], false⟩, [], [], []⟩, rfl, rfl, rfl, rfl, rfl⟩
    | cons id rest =>
      have hid : (id == 0) = false := by
        simpa using hpos id (by rw [hq]; exact List.mem_cons_self id rest)
      dsimp only
      rw [if_neg (by simp [hid])]
      have hq1 : (runItem oracle id { s with queue := rest }).1.queue = rest :=
        runItem_queue oracle id { s with queue := rest }
      obtain ⟨out, hout, hproc, hqe, hfl, hsl⟩ :=
        ih (i + 1) (runItem oracle id { s with queue := rest }).1
          (by rw [hq1]; intro x hx; exact hpos x (by rw [hq]; exact List.mem_cons_of_mem id hx))
          (by
            rw [hq1]
            have h2 := congrArg List.length hq
            simp only [List.length_cons] at h2
            omega)
      refine ⟨{ out with
          events := (runItem oracle id { s with queue := rest }).2 ++ out.events,
          processed := id :: out.processed }, ?_, ?_, hqe, hfl, hsl⟩
      · rw [hout]; rfl
      · simp [hproc, hq1, hq]

/-- Whenever the loop returns at all (any connectivity schedule, any
oracle), it exited with the single-flight flag cleared and — when no queued
id is the falsy id 0 — an empty queue. -/
theorem processLoop_exit (oracle : Nat → PipelineResult) (offline : Nat → Bool)
    (fuel i : Nat) (s : RState) (out : LoopOut)
    (hpos : ∀ id ∈ s.queue, id ≠ 0)
    (h : processLoop oracle offline fuel i s = some out) :
    out.state.queueProcessing = false ∧ out.state.queue = [] := by
  induction fuel generalizing i s out with
  | zero => exact absurd h (by simp [processLoop])
  | succ fuel ih =>
    unfold processLoop at h
    by_cases ho : offline i = true
    · rw [if_pos ho] at h
      cases hrec : processLoop oracle offline fuel (i + 1) s with
      | none => rw [hrec] at h; cases h
      | some out' =>
        rw [hrec] at h
        obtain rfl := Option.some.inj h.symm
        exact ih (i + 1) s out' hpos hrec
    · rw [if_neg ho] at h
      cases hq : s.queue with
      | nil =>
        rw [hq] at h
        cases h
        exact ⟨rfl, rfl⟩
      | cons id rest =>
        rw [hq] at h
        have hid : (id == 0) = false := by
          simpa using hpos id (by rw [hq]; exact List.mem_cons_self id rest)
        dsimp only at h
        rw [if_neg (by simp [hid])] at h
        cases hrec : processLoop oracle offline fuel (i + 1)
            (runItem oracle id { s with queue := rest }).1 with
        | none => rw [hrec] at h; cases h
        | some out' =>
          rw [hrec] at h
          obtain rfl := Option.some.inj h.symm
          exact ih (i + 1) (runItem oracle id { s with queue := rest }).1 out'
            (by
              rw [runItem_queue]
              intro x hx
              exact hpos x (by rw [hq]; exact List.mem_cons_of_mem id hx))
            hrec

/-- C2: a start request made while `_queueProcessing` is set returns
immediately with no dequeue, no row change and no event; and whenever the
loop returns (so for every exit of `_processQueue`'s loop), the flag is
cleared and — queued ids being nonzero — the queue it exited on is empty. -/
theorem processQueue_single_flight (oracle : Nat → PipelineResult)
    (offline : Nat → Bool) (fuel : Nat) (s : RState) (out : LoopOut) :
    (s.queueProcessing = true →
      _processQueue oracle offline fuel s = some ⟨s, [], [], []⟩)
    ∧ (s.queueProcessing = false → (∀ id ∈ s.queue, id ≠ 0) →
        _processQueue oracle offline fuel s = some out →
        out.state.queueProcessing = false ∧ out.state.queue = []) := by
  constructor
  · intro h
    unfold _processQueue
    rw [if_pos h]
  · intro hflag hpos h
    unfold _processQueue at h
    rw [if_neg (by simp [hflag])] at h
    exact processLoop_exit oracle offline fuel 0 { s with queueProcessing := true } out hpos h

/-- C2 witness: a flagged state is returned unchanged; a completed run from
`sActive` ends with the flag cleared on an empty queue. -/
theorem processQueue_single_flight_witness :
    _processQueue oracleNoMatch offlineNever 1 ⟨[], [], true⟩ = some ⟨⟨[], [], true⟩, [], [], []⟩
    ∧ (outNoMatch.state.queueProcessing = false ∧ outNoMatch.state.queue = []) :=
  ⟨(processQueue_single_flight oracleNoMatch offlineNever 1 ⟨[], [], true⟩ outNoMatch).1 rfl,
   (processQueue_single_flight oracleNoMatch offlineNever 2 sActive outNoMatch).2 rfl
      (by decide) rfl⟩

/-- C6: iterations that observe connectivity down sleep exactly
`OFFLINE_RECHECK_DELAY` (= 60 s) each, dequeue nothing, change no row and
fire no event; the loop then continues from the unchanged state — same
queue head — once connectivity returns. -/
theorem processLoop_offline_backoff (oracle : Nat → PipelineResult)
    (offline : Nat → Bool) (fuel k i : Nat) (s : RState)
    (hoff : ∀ j, j < k → offline (i + j) = true) :
    processLoop oracle offline (k + fuel) i s
      = (processLoop oracle offline fuel (i + k) s).map
          (fun out => { out with
            sleeps := List.replicate k OFFLINE_RECHECK_DELAY ++ out.sleeps })
    ∧ OFFLINE_RECHECK_DELAY = 60 * 1000 := by
  refine ⟨?_, rfl⟩
  induction k generalizing i with
  | zero =>
    simp only [Nat.zero_add, Nat.add_zero, List.replicate, List.nil_append]
    cases processLoop oracle offline fuel i s <;> rfl
  | succ k ih =>
    rw [show k + 1 + fuel = (k + fuel) + 1 from by omega]
    have h0 : offline i = true := by simpa using hoff 0 (by omega)
    conv_lhs => rw [processLoop]
    rw [if_pos h0]
    rw [ih (i + 1) (fun j hj => by
      have := hoff (j + 1) (by omega)
      rwa [show i + (j + 1) = i + 1 + j from by omega] at this)]
    rw [show i + 1 + k = i + (k + 1) from by omega]
    cases processLoop oracle offline fuel (i + (k + 1)) s with
    | none => rfl
    | some out => simp [List.replicate_succ]

/-- C6 witness: one offline iteration at the head of the schedule. -/
theorem processLoop_offline_backoff_witness :
    processLoop oracleNoMatch (offlineFirst 1) (1 + 2) 0 sActive
      = (processLoop oracleNoMatch (offlineFirst 1) 2 (0 + 1) sActive).map
          (fun out => { out with
            sleeps := List.replicate 1 OFFLINE_RECHECK_DELAY ++ out.sleeps })
    ∧ OFFLINE_RECHECK_DELAY = 60 * 1000 :=
  processLoop_offline_backoff oracleNoMatch (offlineFirst 1) 2 1 0 sActive
    (by decide)

/-! ## Enqueue-order lemmas -/

theorem foldl_addItem_state (items : List ZItemRef) (s : RState) (evs : List Event) :
    (items.foldl
      (fun (acc : RState × List Event) it =>
        let q := _addItem it acc.1
        (q.1, acc.2 ++ q.2))
      (s, evs)).1
      = items.foldl (fun st it => (_addItem it st).1) s := by
  induction items generalizing s evs with
  | nil => rfl
  | cons it rest ih =>
    simp only [List.foldl_cons]
    exact ih _ _

theorem insertFresh_fst (item : ZItemRef) (s : RState) :
    (insertFresh item s).1
      = { s with rows := ⟨item.id, ROW_QUEUED, item.title, ""⟩ :: s.rows,
                 queue := item.id :: s.queue } := rfl

/-- Enqueuing a list of items with pairwise-distinct ids, none already in
the table, prepends each id in turn: the queue ends in reverse enqueue
order (most recently enqueued first), and so does the row table. -/
theorem foldl_addItem_fresh (items : List ZItemRef) (s : RState)
    (hdisj : ∀ it ∈ items, ∀ r ∈ s.rows, r.id ≠ it.id)
    (hnd : (items.map ZItemRef.id).Nodup) :
    (items.foldl (fun st it => (_addItem it st).1) s).queue
        = (items.map ZItemRef.id).reverse ++ s.queue
    ∧ (items.foldl (fun st it => (_addItem it st).1) s).rows.map Row.id
        = (items.map ZItemRef.id).reverse ++ s.rows.map Row.id
    ∧ (items.foldl (fun st it => (_addItem it st).1) s).queueProcessing
        = s.queueProcessing := by
  induction items generalizing s with
  | nil => exact ⟨rfl, rfl, rfl⟩
  | cons it rest ih =>
    simp only [List.foldl_cons]
    have hf : s.rows.find? (fun x => x.id == it.id) = none := by
      rw [List.find?_eq_none]
      intro r hr
      simpa using hdisj it (List.mem_cons_self it rest) r hr
    rw [addItem_of_find?_none it s hf, insertFresh_fst]
    rw [List.map_cons, List.nodup_cons] at hnd
    obtain ⟨hq, hr, hp⟩ := ih
      { s with rows := ⟨it.id, ROW_QUEUED, it.title, ""⟩ :: s.rows,
               queue := it.id :: s.queue }
      (by
        intro it' hit' r hrr
        rcases List.mem_cons.mp hrr with rfl | hold
        · intro he
          have h2 : it.id = it'.id := he
          exact hnd.1 (by rw [h2]; exact List.mem_map_of_mem ZItemRef.id hit')
        · exact hdisj it' (List.mem_cons_of_mem it hit') r hold)
      hnd.2
    refine ⟨?_, ?_, hp⟩
    · rw [hq]
      simp [List.reverse_cons, List.append_assoc]
    · rw [hr]
      simp [List.reverse_cons, List.append_assoc]

/-- C1 counterexample: enqueue A (id 1) then B (id 2) into an empty table
and run the worker with everything online: B, the most recently enqueued,
is dequeued first — processing order `[2, 1]`, not FIFO order `[1, 2]`. -/
theorem fifo_counterexample :
    ((recognizeItems oracleNoMatch offlineNever 3 [itemA, itemB] initState).2).map
        LoopOut.processed = some [itemB.id, itemA.id]
    ∧ [itemB.id, itemA.id] ≠ [itemA.id, itemB.id] :=
  ⟨rfl, by decide⟩

/-- C1 amended: the worker dequeues in LIFO order — `_addItem` prepends to
`_queue` (line 138) and the loop shifts from the front (line 207), so for
any enqueue sequence of distinct nonzero ids into an empty table the ids
are processed most-recently-enqueued first, i.e. in reverse enqueue order,
which coincides with the Row Table's most-recently-first display order. -/
theorem enqueue_dequeue_lifo (oracle : Nat → PipelineResult)
    (items : List ZItemRef) (fuel : Nat)
    (hnd : (items.map ZItemRef.id).Nodup)
    (hpos : ∀ it ∈ items, it.id ≠ 0)
    (hfuel : items.length < fuel) :
    ((recognizeItems oracle offlineNever fuel items initState).2).map
        LoopOut.processed
      = some (items.map ZItemRef.id).reverse := by
  unfold recognizeItems _processQueue
  dsimp only
  rw [foldl_addItem_state]
  obtain ⟨hq, hr, hp⟩ := foldl_addItem_fresh items initState (by simp [initState]) hnd
  rw [if_neg (by rw [hp]; simp [initState])]
  obtain ⟨out, hout, hproc, _, _, _⟩ :=
    processLoop_online oracle fuel 0
      { items.foldl (fun st it => (_addItem it st).1) initState with queueProcessing := true }
      (by
        intro id hid
        have : id ∈ (items.map ZItemRef.id).reverse ++ initState.queue := by
          rw [← hq]; exact hid
        simp only [initState, List.append_nil, List.mem_reverse, List.mem_map] at this
        obtain ⟨it, hit, rfl⟩ := this
        exact hpos it hit)
      (by
        show (items.foldl (fun st it => (_addItem it st).1) initState).queue.length < fuel
        rw [hq]
        simpa [initState] using hfuel)
  rw [hout]
  simp only [Option.map_some']
  rw [hproc]
  show some ((items.foldl (fun st it => (_addItem it st).1) initState).queue) = _
  rw [hq]
  simp [initState]

/-- C1 amended witness. -/
theorem enqueue_dequeue_lifo_witness :
    ((recognizeItems oracleNoMatch offlineNever 3 [itemA, itemB] initState).2).map
        LoopOut.processed
      = some ([itemA, itemB].map ZItemRef.id).reverse :=
  enqueue_dequeue_lifo oracleNoMatch [itemA, itemB] 3 (by decide) (by decide) (by decide)

/-! ## Error isolation lemmas -/

theorem find?_updateFirst (l : List Row) (itemID st : Nat) (m : String) (r : Row)
    (h : l.find? (fun x => x.id == itemID) = some r) :
    (updateFirst itemID st m l).find? (fun x => x.id == itemID)
      = some ⟨r.id, st, r.fileName, m⟩ := by
  induction l with
  | nil => simp [List.find?] at h
  | cons x xs ih =>
    rw [List.find?_cons] at h
    by_cases hx : (x.id == itemID) = true
    · simp only [hx] at h
      cases h
      unfold updateFirst
      rw [if_pos hx, List.find?_cons]
      simp only [hx]
    · have hx' : (x.id == itemID) = false := by simpa using hx
      simp only [hx'] at h
      unfold updateFirst
      rw [if_neg hx, List.find?_cons]
      simp only [hx']
      exact ih h

theorem updateRow_findRow (itemID st : Nat) (m : String) (s : RState) (r : Row)
    (h : findRow s itemID = some r) :
    findRow (_updateRow itemID st m s).1 itemID = some ⟨r.id, st, r.fileName, m⟩ := by
  rw [findRow] at h
  have hpred := List.find?_some h
  have hany : s.rows.any (fun x => x.id == itemID) = true := by
    rw [List.any_eq_true]
    exact ⟨r, List.mem_of_find?_eq_some h, by simpa using hpred⟩
  unfold _updateRow
  rw [if_pos hany]
  exact find?_updateFirst s.rows itemID st m r h

/-- C5: whatever the per-item pipeline outcome — including thrown errors —
the loop processes every queued id in order and never aborts; an item whose
pipeline throws a `Zotero.Exception.Alert` gets its row marked Failed with
the alert's own message, and any other thrown error marks the row Failed
with the generic localized error message. -/
theorem loop_error_isolation (oracle : Nat → PipelineResult) (s : RState)
    (fuel i itemID : Nat) (r : Row) (m : String) :
    ((∀ id ∈ s.queue, id ≠ 0) → s.queue.length < fuel →
      ∃ out, processLoop oracle offlineNever fuel i s = some out
        ∧ out.processed = s.queue)
    ∧ (findRow s itemID = some r → oracle itemID = .alertError m →
        findRow (runItem oracle itemID s).1 itemID
          = some ⟨r.id, ROW_FAILED, r.fileName, m⟩)
    ∧ (findRow s itemID = some r → oracle itemID = .otherError m →
        findRow (runItem oracle itemID s).1 itemID
          = some ⟨r.id, ROW_FAILED, r.fileName, getString "recognizePDF.error"⟩) := by
  refine ⟨?_, ?_, ?_⟩
  · intro hpos hlen
    obtain ⟨out, hout, hproc, _, _, _⟩ := processLoop_online oracle fuel i s hpos hlen
    exact ⟨out, hout, hproc⟩
  · intro h ho
    unfold runItem
    dsimp only
    rw [ho]
    have h1 := updateRow_findRow itemID ROW_PROCESSING (getString "recognizePDF.processing") s r h
    have h2 := updateRow_findRow itemID ROW_FAILED m _ _ h1
    exact h2
  · intro h ho
    unfold runItem
    dsimp only
    rw [ho]
    have h1 := updateRow_findRow itemID ROW_PROCESSING (getString "recognizePDF.processing") s r h
    have h2 := updateRow_findRow itemID ROW_FAILED (getString "recognizePDF.error") _ _ h1
    exact h2

/-- C5 witness: the loop finishes the whole queue under an always-alerting
oracle, and both failure markings evaluated on a concrete row. -/
theorem loop_error_isolation_witness :
    (processLoop oracleAlert offlineNever 2 0 sActive).map LoopOut.processed = some [5]
    ∧ findRow (runItem oracleAlert 5 sActive).1 5
        = some ⟨5, ROW_FAILED, "t", "alert text"⟩
    ∧ findRow (runItem oracleOther 5 sActive).1 5
        = some ⟨5, ROW_FAILED, "t", getString "recognizePDF.error"⟩ := by
  refine ⟨?_, ?_, ?_⟩
  · obtain ⟨out, hout, hproc⟩ :=
      (loop_error_isolation oracleAlert sActive 2 0 5 ⟨5, ROW_QUEUED, "t", ""⟩ "alert text").1
        (by decide) (by decide)
    rw [hout, Option.map_some', hproc]
    rfl
  · exact (loop_error_isolation oracleAlert sActive 2 0 5 ⟨5, ROW_QUEUED, "t", ""⟩
      "alert text").2.1 rfl rfl
  · exact (loop_error_isolation oracleOther sActive 2 0 5 ⟨5, ROW_QUEUED, "t", ""⟩
      "TypeError: x is undefined").2.2 rfl rfl

/-- C10: `canRecognize` holds exactly for top-level items whose attachment
content type is `application/pdf`; it is a pure function of the item alone. -/
theorem canRecognize_iff (item : ZItemInfo) :
    canRecognize item = true ↔
      (item.attachmentContentType = some "application/pdf" ∧ item.isTopLevelItem = true) := by
  obtain ⟨ct, top⟩ := item
  cases ct with
  | none => simp [canRecognize, truthy]
  | some s =>
    simp only [canRecognize, truthy, Bool.and_eq_true, beq_iff_eq, Option.some.injEq]
    constructor
    · rintro ⟨⟨_, h⟩, ht⟩
      exact ⟨by simpa using h, ht⟩
    · rintro ⟨h, ht⟩
      obtain rfl : s = "application/pdf" := by simpa using h
      exact ⟨⟨by decide, rfl⟩, ht⟩

end RecognizePDF
